import Mathlib

/-!
# Verification of the Spark Connect Python client protocol layer

Shallow embedding of `src/python/pyspark/sql/connect/client.py`:

* the `Retrying` / `AttemptManager` / `RetryState` bounded-retry loop with
  exponential backoff (`Retrying.__iter__`, client.py:813-850);
* the `ChannelBuilder` connection-string parser (client.py:149-255), including
  the behaviour of `urllib.parse.urlparse` on the rewritten `http://` URL;
* the `SparkConnectClient` request methods `_analyze`, `_execute`,
  `_execute_and_fetch` and the error translation `_handle_error`.

Conventions of the embedding:

* Python exceptions become explicit error values (`Except`); an operation that
  can raise returns `Except ε α`.
* Machine/randomness effects are oracles: `random.randrange(0, hi)` is an
  arbitrary function `rng : Int → Int → Int` about which theorems assume only
  the `randrange` contract (`0 < hi → 0 ≤ rng 0 hi < hi`).
* The backoff computation is modelled over `ℤ`; the source's default retry
  policy is all-integer, for which this is exact (IEEE-754 arithmetic on
  genuinely fractional `backoff_multiplier` values is not modelled).
* gRPC / protobuf objects are modelled structurally: a response is a record of
  the fields the client reads.
-/

namespace SparkConnect

/-- Decidable equality on `Except`, so that concrete runs of the embedded
operations can be checked by `decide`. -/
instance {ε α : Type} [DecidableEq ε] [DecidableEq α] : DecidableEq (Except ε α) := fun x y =>
  match x, y with
  | .ok a, .ok b =>
    if h : a = b then isTrue (by rw [h]) else isFalse (by intro hh; cases hh; exact h rfl)
  | .error e, .error f =>
    if h : e = f then isTrue (by rw [h]) else isFalse (by intro hh; cases hh; exact h rfl)
  | .ok _, .error _ => isFalse (by intro hh; cases hh)
  | .error _, .ok _ => isFalse (by intro hh; cases hh)

/-! ## Retry policy and backoff computation (client.py:799-811, 835-848) -/

/-- The retry policy fields of `Retrying.__init__` / `SparkConnectClient._retry_policy`.
The defaults are the Python ints `15, 50, 60000, 4`; `backoff_multiplier` is
annotated `float` in the source but defaults to the integer `4`, and integer
policies are the only ones modelled (the `int(...)` truncation in
client.py:839 is then the identity; IEEE-754 arithmetic on genuinely
fractional multipliers is not modelled). -/
structure RetryPolicy where
  max_retries : Nat
  initial_backoff : ℤ
  max_backoff : ℤ
  backoff_multiplier : ℤ
  deriving DecidableEq, Repr

/-- The default policy of `SparkConnectClient.__init__` (client.py:408-413). -/
def defaultRetryPolicy : RetryPolicy :=
  { max_retries := 15
    initial_backoff := 50
    max_backoff := 60000
    backoff_multiplier := 4 }

/-- The upper bound handed to `random.randrange` before the retry attempt that
runs with `retry_state.count() = count`:
`int(min(initial_backoff * backoff_multiplier ** count, max_backoff))`
(client.py:837-845); exact for the integer policies modelled here. -/
def backoffBound (pol : RetryPolicy) (count : Nat) : ℤ :=
  min (pol.initial_backoff * pol.backoff_multiplier ^ count) pol.max_backoff

/-! ## The retry loop

`Retrying.__iter__` (client.py:813-850) runs a `while True` loop over a
`RetryState`:

* if `retry_state.done()` the loop breaks (the block completed once
  without an exception; the caller then proceeds normally);
* else if `retry_state.count() > max_retries`, the last recorded exception is
  re-raised, or `ValueError("Retries exceeded but no exception caught.")` when
  none was recorded;
* else, when `count > 0`, the loop sleeps for
  `random.randrange(0, int(min(initial*mult**count, max)))` milliseconds
  (`randrange` itself raises `ValueError` when the bound is `≤ 0`);
* then it yields one `AttemptManager` scope; the caller runs the unit of work
  inside it.  On scope exit (`AttemptManager.__exit__`, client.py:761-776):
  no exception marks the state done; a retriable exception is swallowed and
  recorded (`set_exception` also increments the count); a non-retriable
  exception bubbles up.

The embedding fuses the `done`-then-`break` step into returning
`RetryOutcome.success` directly, and runs the loop on the structurally
decreasing fuel `max_retries + 1 - count` (the loop check `count > max_retries`
is exactly `fuel = 0`).  The unit of work for attempt `n` may read and update a
caller-owned state `σ` (mutable locals of the enclosing Python function, e.g.
`m`/`batches` in `_execute_and_fetch`) and either returns a value or raises. -/

/-- How one run of the `Retrying` loop ends. -/
inductive RetryOutcome (ε α : Type) where
  /-- The unit of work completed without an exception; the loop exits normally. -/
  | success (a : α)
  /-- An exception propagates out of the loop: either a non-retriable one, or
  the last recorded retriable one after the retry bound is exceeded. -/
  | raised (e : ε)
  /-- `ValueError("Retries exceeded but no exception caught.")` — the defensive
  branch of client.py:833. -/
  | retriesExceededNoException
  /-- `ValueError` out of `random.randrange(0, k)` because `k ≤ 0`. -/
  | backoffValueError
  deriving DecidableEq, Repr

/-- The observable trace of one run of the retry loop: its outcome, the number
of times the unit of work was entered, the successive sleep durations that were
drawn, and the final caller-owned state. -/
structure RetryRun (ε α σ : Type) where
  outcome : RetryOutcome ε α
  attempts : Nat
  sleeps : List Int
  final : σ
  deriving DecidableEq, Repr

/-- One iteration of the `while True` loop of `Retrying.__iter__`, with
`fuel = max_retries + 1 - count`.  `lastExc` is `retry_state._exception`;
`count` is `retry_state._count`. -/
def retryGo {ε α σ : Type} (pol : RetryPolicy) (canRetry : ε → Bool)
    (work : Nat → σ → σ × Except ε α) (rng : Int → Int → Int) :
    Nat → Nat → Option ε → σ → RetryRun ε α σ
  | 0, _count, lastExc, s =>
    -- `count > max_retries`: re-raise the recorded exception, else ValueError.
    match lastExc with
    | some e => ⟨.raised e, 0, [], s⟩
    | none => ⟨.retriesExceededNoException, 0, [], s⟩
  | fuel + 1, count, _lastExc, s =>
    -- Backoff sleep before every attempt except the first (`count > 0`).
    if 0 < count ∧ backoffBound pol count ≤ 0 then
      -- `random.randrange(0, k)` with `k ≤ 0` raises ValueError.
      ⟨.backoffValueError, 0, [], s⟩
    else
      let sl : List Int := if 0 < count then [rng 0 (backoffBound pol count)] else []
      let w := work count s
      match w.2 with
      | .ok a => ⟨.success a, 1, sl, w.1⟩
      | .error e =>
        if canRetry e then
          -- swallowed; `set_exception` records it and increments the count
          let rest := retryGo pol canRetry work rng fuel (count + 1) (some e) w.1
          ⟨rest.outcome, rest.attempts + 1, sl ++ rest.sleeps, rest.final⟩
        else
          -- bubbles up unmodified
          ⟨.raised e, 1, sl, w.1⟩

/-- A full run of `for attempt in Retrying(...): with attempt: work`, starting
from a fresh `RetryState()` (`count = 0`, no exception) and initial
caller-owned state `s0`. -/
def retryRun {ε α σ : Type} (pol : RetryPolicy) (canRetry : ε → Bool)
    (work : Nat → σ → σ × Except ε α) (rng : Int → Int → Int) (s0 : σ) :
    RetryRun ε α σ :=
  retryGo pol canRetry work rng (pol.max_retries + 1) 0 none s0

/-- `[start, start+1, ..., start+n-1]` — helper for stating which counts slept. -/
def countRange (start : Nat) : Nat → List Nat
  | 0 => []
  | n + 1 => start :: countRange (start + 1) n

/-! ## Connection strings: `ChannelBuilder` (client.py:99-255)

`ChannelBuilder.__init__` checks the literal prefix `sc://`, rewrites the URL
to `"http" + url[2:]` and runs it through `urllib.parse.urlparse`, rejects a
non-trivial path component, then `_extract_attributes` splits the parameter
string on `;`, each segment on `=` (exactly one pair required,
percent-decoding the value), and the netloc on `:` (at most one colon).  All
四 rejections raise `AttributeError`; additionally `urlparse` itself raises
`ValueError("Invalid IPv6 URL")` on an unbalanced square bracket in the
netloc, and `int(port)` raises `ValueError` on a non-integer port literal.

String scanning is implemented on `List Char` so that every concrete instance
reduces in the kernel. -/

/-- Python `s.split(sep)` for a single-character separator: empty pieces are
kept and the empty string splits to `[""]`. -/
def splitCharAux (sep : Char) : List Char → List Char → List (List Char)
  | [], acc => [acc.reverse]
  | c :: rest, acc =>
    if c == sep then acc.reverse :: splitCharAux sep rest []
    else splitCharAux sep rest (c :: acc)

/-- Python `s.split(sep)` (single-character separator). -/
def splitChar (sep : Char) (s : List Char) : List (List Char) :=
  splitCharAux sep s []

/-- Split at the first occurrence of `sep`, or `none` when absent. -/
def breakOnFirst (sep : Char) : List Char → Option (List Char × List Char)
  | [] => none
  | c :: rest =>
    if c == sep then some ([], rest)
    else
      match breakOnFirst sep rest with
      | some (a, b) => some (c :: a, b)
      | none => none

/-- Split at the last occurrence of `sep`, or `none` when absent. -/
def breakOnLast (sep : Char) (s : List Char) : Option (List Char × List Char) :=
  match breakOnFirst sep s.reverse with
  | some (a, b) => some (b.reverse, a.reverse)
  | none => none

/-- A character that terminates the netloc in `urllib.parse.urlsplit`. -/
def netlocStop (c : Char) : Bool :=
  c == '/' || c == '?' || c == '#'

/-- `urllib.parse._splitnetloc`: the netloc runs from after `//` up to the
first of `/`, `?` or `#`. -/
def splitNetloc : List Char → List Char × List Char
  | [] => ([], [])
  | c :: rest =>
    if netlocStop c then ([], c :: rest)
    else
      let (a, b) := splitNetloc rest
      (c :: a, b)

/-- `urllib.parse._splitparams`: split the path's parameter string off at the
first `;` that follows the last `/` (or the first `;` at all when the path has
no `/`).  Only called when the path contains a `;`. -/
def splitparams (path : List Char) : List Char × List Char :=
  match breakOnLast '/' path with
  | some (pre, last) =>
    match breakOnFirst ';' last with
    | some (l1, l2) => (pre ++ '/' :: l1, l2)
    | none => (path, [])
  | none =>
    match breakOnFirst ';' path with
    | some (a, b) => (a, b)
    | none => (path, [])

/-- The components of `urllib.parse.urlparse` that `ChannelBuilder` reads. -/
structure UrlParts where
  netloc : String
  path : String
  params : String
  query : String
  fragment : String
  deriving DecidableEq, Repr

/-- `urllib.parse.urlparse("http://" ++ rest)` for the rewritten connection
URL.  Yields `Except.error ()` exactly where CPython's `urlsplit` raises
`ValueError("Invalid IPv6 URL")`: a `[` without `]` (or vice versa) in the
netloc.  (CPython's stripping of stray tab/newline control characters is not
modelled; connection strings are assumed free of them.) -/
def urlparseHttp (rest : List Char) : Except Unit UrlParts :=
  let (netloc, rest1) := splitNetloc rest
  if (netloc.contains '[' && !netloc.contains ']')
      || (netloc.contains ']' && !netloc.contains '[') then
    .error ()
  else
    let (rest2, fragment) :=
      match breakOnFirst '#' rest1 with
      | some (a, b) => (a, b)
      | none => (rest1, [])
    let (path0, query) :=
      match breakOnFirst '?' rest2 with
      | some (a, b) => (a, b)
      | none => (rest2, [])
    let (path, params) :=
      if path0.contains ';' then splitparams path0 else (path0, [])
    .ok ⟨⟨netloc⟩, ⟨path⟩, ⟨params⟩, ⟨query⟩, ⟨fragment⟩⟩

/-- Value of a hexadecimal digit character. -/
def hexDigit? (c : Char) : Option Nat :=
  if '0' ≤ c ∧ c ≤ '9' then some (c.toNat - '0'.toNat)
  else if 'a' ≤ c ∧ c ≤ 'f' then some (c.toNat - 'a'.toNat + 10)
  else if 'A' ≤ c ∧ c ≤ 'F' then some (c.toNat - 'A'.toNat + 10)
  else none

/-- `urllib.parse.unquote` on the characters of a parameter value: a `%`
followed by two hex digits decodes to that byte, anything else is kept
verbatim.  (Recombination of multi-byte UTF-8 sequences into single code
points is not modelled; parameter values are assumed ASCII.) -/
def unquoteList : List Char → List Char
  | '%' :: a :: b :: rest =>
    (match hexDigit? a, hexDigit? b with
     | some hi, some lo => Char.ofNat (16 * hi + lo) :: unquoteList rest
     | _, _ => '%' :: unquoteList (a :: b :: rest))
  | c :: rest => c :: unquoteList rest
  | [] => []

/-- ASCII lowering, the fragment of Python `str.lower` exercised here. -/
def lowerChar (c : Char) : Char :=
  if 'A' ≤ c ∧ c ≤ 'Z' then Char.ofNat (c.toNat + 32) else c

/-- ASCII `str.lower`. -/
def lowerStr (s : String) : String :=
  ⟨s.data.map lowerChar⟩

/-- Reserved parameter keys (client.py:117-119). -/
def PARAM_USE_SSL : String := "use_ssl"

/-- Reserved parameter key for the bearer token. -/
def PARAM_TOKEN : String := "token"

/-- Reserved parameter key for the user id. -/
def PARAM_USER_ID : String := "user_id"

/-- Lookup in the parameter dictionary built by successive
`self.params[k] = v` assignments: the parameters are kept in insertion order
and a later binding of the same key wins, as for a Python dict. -/
def dictGet : List (String × String) → String → Option String
  | [], _ => none
  | (k', v) :: rest, k =>
    match dictGet rest k with
    | some v' => some v'
    | none => if k' == k then some v else none

/-- The ways `ChannelBuilder.__init__` can fail, by Python exception raised. -/
inductive BuilderError where
  /-- `AttributeError("URL scheme must be set to sc.")` (client.py:162-163). -/
  | malformedScheme
  /-- `ValueError("Invalid IPv6 URL")` out of `urllib.parse.urlparse`. -/
  | invalidIPv6Url
  /-- `AttributeError`: non-trivial path component (client.py:169-172). -/
  | malformedPath (path : String)
  /-- `AttributeError`: parameter segment is not one `key=value` pair
  (client.py:181-182). -/
  | malformedParam (segment : String)
  /-- `AttributeError`: netloc does not match `<host>:<port>`
  (client.py:192-195). -/
  | malformedNetloc (netloc : String)
  /-- `ValueError` out of `int(port)` (client.py:191). -/
  | invalidPortLiteral (s : String)
  deriving DecidableEq, Repr

/-- The spec's `MalformedConnectionString` error is the `AttributeError` group. -/
def BuilderError.isMalformedConnectionString : BuilderError → Bool
  | .malformedScheme => true
  | .malformedPath _ => true
  | .malformedParam _ => true
  | .malformedNetloc _ => true
  | .invalidIPv6Url => false
  | .invalidPortLiteral _ => false

/-- Python `int(s)` on a decimal string: an optional sign followed by a
non-empty digit string.  (Python additionally strips surrounding whitespace
and accepts `_` digit separators; such port literals are not modelled.) -/
def pyIntParse (s : String) : Option Int :=
  match s.data with
  | '-' :: ds => if ds ≠ [] ∧ ds.all Char.isDigit then some (-(digitsToNat ds : Int)) else none
  | '+' :: ds => if ds ≠ [] ∧ ds.all Char.isDigit then some (digitsToNat ds : Int) else none
  | ds => if ds ≠ [] ∧ ds.all Char.isDigit then some (digitsToNat ds : Int) else none
where
  digitsToNat (ds : List Char) : Nat :=
    ds.foldl (fun acc c => 10 * acc + (c.toNat - '0'.toNat)) 0

/-- The default port 15002 (client.py:121-147; the `SPARK_TESTING` dynamic
override goes through the out-of-scope JVM session and is not modelled —
spec §4.1 and §6 treat it as an external collaborator concern). -/
def DEFAULT_PORT : Int := 15002

/-- The state built by a successful `ChannelBuilder.__init__`. -/
structure ChannelBuilderS where
  url : UrlParts
  params : List (String × String)
  host : String
  port : Int
  deriving DecidableEq, Repr

/-- The parameter loop of `ChannelBuilder._extract_attributes`
(client.py:177-183): each `;`-segment must split on `=` into exactly one
key/value pair; the value is percent-decoded; the first bad segment raises. -/
def extractParams : List (List Char) → Except BuilderError (List (String × String))
  | [] => .ok []
  | p :: rest =>
    match splitChar '=' p with
    | [k, v] =>
      match extractParams rest with
      | .ok tail => .ok ((⟨k⟩, ⟨unquoteList v⟩) :: tail)
      | .error e => .error e
    | _ => .error (.malformedParam ⟨p⟩)

/-- `ChannelBuilder.__init__` + `_extract_attributes` (client.py:149-195). -/
def channelBuilderInit (url : String) : Except BuilderError ChannelBuilderS :=
  -- `if url[:5] != "sc://": raise AttributeError`
  if url.data.take 5 ≠ "sc://".data then .error .malformedScheme
  else
    -- `tmp_url = "http" + url[2:]; self.url = urllib.parse.urlparse(tmp_url)`
    match urlparseHttp (url.data.drop 5) with
    | .error () => .error .invalidIPv6Url
    | .ok parts =>
      -- `if len(self.url.path) > 0 and self.url.path != "/": raise`
      if parts.path.data.length > 0 ∧ parts.path ≠ "/" then
        .error (.malformedPath parts.path)
      else
        match
          (if parts.params.data.length > 0 then
            extractParams (splitChar ';' parts.params.data)
          else .ok []) with
        | .error e => .error e
        | .ok params =>
          -- `netloc = self.url.netloc.split(":")`
          match splitChar ':' parts.netloc.data with
          | [h] => .ok ⟨parts, params, ⟨h⟩, DEFAULT_PORT⟩
          | [h, p] =>
            match pyIntParse ⟨p⟩ with
            | some port => .ok ⟨parts, params, ⟨h⟩, port⟩
            | none => .error (.invalidPortLiteral ⟨p⟩)
          | _ => .error (.malformedNetloc parts.netloc)

/-- `ChannelBuilder._token` (client.py:230-232). -/
def ChannelBuilderS.token (cb : ChannelBuilderS) : Option String :=
  dictGet cb.params PARAM_TOKEN

/-- `ChannelBuilder.secure` (client.py:218-224): true iff a token is present,
else iff the `use_ssl` parameter lowercases to `"true"`. -/
def ChannelBuilderS.secure (cb : ChannelBuilderS) : Bool :=
  match cb.token with
  | some _ => true
  | none => lowerStr ((dictGet cb.params PARAM_USE_SSL).getD "") == "true"

/-- `ChannelBuilder.userId` (client.py:234-242). -/
def ChannelBuilderS.userId (cb : ChannelBuilderS) : Option String :=
  dictGet cb.params PARAM_USER_ID

/-! Condition predicates over a connection string, used to state which inputs
`ChannelBuilder.__init__` accepts and with which error it rejects the rest.
They name the conditions of spec §4.1 (plus the two `ValueError` conditions
the spec does not list). -/

/-- The parse failed with the `AttributeError` group (the spec's
`MalformedConnectionString`). -/
def resultIsMalformed (r : Except BuilderError ChannelBuilderS) : Bool :=
  match r with
  | .error e => e.isMalformedConnectionString
  | .ok _ => false

/-- The scheme prefix matches the required literal `sc://`. -/
def connSchemeOk (url : String) : Bool :=
  decide (url.data.take 5 = "sc://".data)

/-- The rewritten URL parses without the IPv6-bracket `ValueError`. -/
def connUrlOk (url : String) : Bool :=
  match urlparseHttp (url.data.drop 5) with
  | .ok _ => true
  | .error () => false

/-- Spec condition: the path component is non-empty and not `"/"`. -/
def connPathBad (url : String) : Bool :=
  match urlparseHttp (url.data.drop 5) with
  | .ok parts => decide (parts.path.data.length > 0 ∧ parts.path ≠ "/")
  | .error () => false

/-- Spec condition: some `;`-delimited parameter segment does not split into
exactly one `=` pair. -/
def connParamsBad (url : String) : Bool :=
  match urlparseHttp (url.data.drop 5) with
  | .ok parts =>
    decide (parts.params.data.length > 0
      ∧ ∃ p ∈ splitChar ';' parts.params.data, (splitChar '=' p).length ≠ 2)
  | .error () => false

/-- The number of colon-separated pieces of the netloc: `1` means no colon,
`2` one colon, and `3` or more is the spec's "more than one colon". -/
def connNetlocParts (url : String) : Nat :=
  match urlparseHttp (url.data.drop 5) with
  | .ok parts => (splitChar ':' parts.netloc.data).length
  | .error () => 0

/-- A one-colon netloc whose port segment `int()` rejects. -/
def connPortBad (url : String) : Bool :=
  match urlparseHttp (url.data.drop 5) with
  | .ok parts =>
    match splitChar ':' parts.netloc.data with
    | [_, p] => decide (pyIntParse ⟨p⟩ = none)
    | _ => false
  | .error () => false

/-! ## Transport errors and `_handle_error` (client.py:664-717) -/

/-- gRPC status codes (`grpc.StatusCode`). -/
inductive StatusCode where
  | ok | cancelled | unknown | invalidArgument | deadlineExceeded | notFound
  | alreadyExists | permissionDenied | resourceExhausted | failedPrecondition
  | aborted | outOfRange | unimplemented | internal | unavailable | dataLoss
  | unauthenticated
  deriving DecidableEq, Repr

/-- `google.rpc.error_details_pb2.ErrorInfo`: the server-supplied reason code
and its metadata map.  The metadata is a proto3 `map<string,string>`, whose
lookup returns `""` for missing keys, hence a total function. -/
structure ErrorInfo where
  reason : String
  metadata : String → String

/-- One entry of `status.details`: either an unpackable `ErrorInfo`
(`d.Is(ErrorInfo.DESCRIPTOR)`) or some other detail type. -/
inductive StatusDetail where
  | errorInfo (info : ErrorInfo)
  | other

/-- The structured `google.rpc.status.Status` attached to a call, as recovered
by `rpc_status.from_call`. -/
structure Status where
  message : String
  details : List StatusDetail

/-- A `grpc.RpcError`: its status code (`e.code()`), the optional structured
status (`rpc_status.from_call(e)`), and `str(e)`. -/
structure RpcError where
  code : StatusCode
  status : Option Status
  message : String

/-- The Python exceptions the embedded client operations can surface, one
constructor per distinct raise site; structured context (messages, plan text,
reason, session ids) is carried as fields. -/
inductive PyException where
  /-- `SparkConnectGrpcException(message, reason=...)`. -/
  | sparkConnectGrpc (message : String) (reason : Option String)
  /-- `SparkConnectAnalysisException(message, plan=...)`. -/
  | sparkConnectAnalysis (message : String) (plan : String)
  /-- `SparkConnectParseException(message)`. -/
  | sparkConnectParse (message : String)
  /-- `SparkConnectTempTableAlreadyExistsException(message, plan=...)`. -/
  | sparkConnectTempTableExists (message : String) (plan : String)
  /-- `SparkConnectIllegalArgumentException(message)`. -/
  | sparkConnectIllegalArgument (message : String)
  /-- `SparkConnectException("Received incorrect session identifier for
  request: {got} != {expected}")` (client.py:589-593, 616-620, 640-643). -/
  | sessionIdMismatch (got : String) (expected : String)
  /-- `ValueError("Unknown explain mode: ...")` (client.py:566-572). -/
  | invalidExplainMode (mode : String)
  /-- `ValueError("Retries exceeded but no exception caught.")`
  (client.py:833). -/
  | retryNoException
  /-- `ValueError` out of `random.randrange` on a non-positive bound. -/
  | backoffRangeError
  /-- `AssertionError` from `assert len(batches) > 0` (client.py:659). -/
  | emptyResultStream
  deriving DecidableEq, Repr

/-- Reason code mapped to `SparkConnectAnalysisException`. -/
def reasonAnalysis : String := "org.apache.spark.sql.AnalysisException"

/-- Reason code mapped to `SparkConnectParseException`. -/
def reasonParse : String := "org.apache.spark.sql.catalyst.parser.ParseException"

/-- Reason code mapped to `SparkConnectTempTableAlreadyExistsException`. -/
def reasonTempTable : String :=
  "org.apache.spark.sql.catalyst.analysis.TempTableAlreadyExistsException"

/-- Reason code mapped to `SparkConnectIllegalArgumentException`. -/
def reasonIllegalArgument : String := "java.lang.IllegalArgumentException"

/-- The reason dispatch of `_handle_error` for one unpacked `ErrorInfo`
(client.py:692-713). -/
def translateErrorInfo (statusMessage : String) (info : ErrorInfo) : PyException :=
  if info.reason == reasonAnalysis then
    .sparkConnectAnalysis (info.metadata "message") (info.metadata "plan")
  else if info.reason == reasonParse then
    .sparkConnectParse (info.metadata "message")
  else if info.reason == reasonTempTable then
    .sparkConnectTempTableExists (info.metadata "message") (info.metadata "plan")
  else if info.reason == reasonIllegalArgument then
    -- `message = message if message != "" else status.message`
    let message := info.metadata "message"
    .sparkConnectIllegalArgument (if message == "" then statusMessage else message)
  else
    .sparkConnectGrpc statusMessage (some info.reason)

/-- The `for d in status.details` loop of `_handle_error` (client.py:688-713):
the first detail that unpacks to an `ErrorInfo` raises; other detail types are
skipped. -/
def handleDetails (statusMessage : String) : List StatusDetail → Option PyException
  | [] => none
  | .errorInfo info :: _ => some (translateErrorInfo statusMessage info)
  | .other :: rest => handleDetails statusMessage rest

/-- `SparkConnectClient._handle_error` (client.py:664-717).  The Python
function is annotated `NoReturn` and raises on every path; the embedding
returns the exception raised. -/
def handle_error (rpc_error : RpcError) : PyException :=
  match rpc_error.status with
  | some status =>
    match handleDetails status.message status.details with
    | some exc => exc
    | none => .sparkConnectGrpc status.message none
  | none => .sparkConnectGrpc rpc_error.message none

/-- The first detail carrying a structured `ErrorInfo`, if any. -/
def firstErrorInfo : List StatusDetail → Option ErrorInfo
  | [] => none
  | .errorInfo info :: _ => some info
  | .other :: rest => firstErrorInfo rest

/-- Modelled from the spec (§4.4 error translation, §7): the expected
translation of a transport error.  "If a recognized structured reason code is
present, translate to one of a fixed set of typed exceptions (AnalysisError,
ParseError, TempObjectAlreadyExists, IllegalArgument), carrying the server
message and, where applicable, the offending plan text" — for
IllegalArgument the server message is the metadata message, falling back to
the status message when the metadata message is empty.  "Unrecognized reason
codes produce a generic wrapped exception carrying the raw status message and
reason string.  If no structured status is attached at all, wrap the raw
transport error message only."  A status without any structured reason also
wraps just the status message. -/
def errorTranslationSpec (rpc_error : RpcError) : PyException :=
  match rpc_error.status with
  | none => .sparkConnectGrpc rpc_error.message none
  | some status =>
    match firstErrorInfo status.details with
    | none => .sparkConnectGrpc status.message none
    | some info =>
      if info.reason == reasonAnalysis then
        .sparkConnectAnalysis (info.metadata "message") (info.metadata "plan")
      else if info.reason == reasonParse then
        .sparkConnectParse (info.metadata "message")
      else if info.reason == reasonTempTable then
        .sparkConnectTempTableExists (info.metadata "message") (info.metadata "plan")
      else if info.reason == reasonIllegalArgument then
        .sparkConnectIllegalArgument
          (if info.metadata "message" == "" then status.message
           else info.metadata "message")
      else
        .sparkConnectGrpc status.message (some info.reason)

/-! ## The client operations (client.py:377-662)

`_analyze`, `_execute` and `_execute_and_fetch` each run their gRPC
interaction inside `for attempt in Retrying(can_retry=retry_exception,
**retry_policy): with attempt: ...`, wrapped in
`except grpc.RpcError as e: self._handle_error(e)`.

Failures the unit of work can raise are either transport errors
(`grpc.RpcError`) or the client's own `SparkConnectException` for a session
id mismatch. -/

/-- An exception raised inside one retry attempt. -/
inductive ClientError where
  /-- A `grpc.RpcError` out of the stub call / response stream. -/
  | rpc (e : RpcError)
  /-- A non-transport Python exception (the session-mismatch
  `SparkConnectException`). -/
  | py (e : PyException)

/-- `SparkConnectClient.retry_exception` (client.py:380-382):
`e.code() == grpc.StatusCode.UNAVAILABLE`.  Modelled from the spec for
non-transport exceptions: the `pyspark.errors` class definitions are outside
this slice, and spec §4.4/§7 make the retriable predicate "true iff the
transport error's status code corresponds to service temporarily unavailable;
all other codes are non-retriable", so a non-`RpcError` exception is not
retried.  (Under CPython attribute semantics, `e.code()` on the mismatch
`SparkConnectException` would itself raise `AttributeError` inside
`AttemptManager.__exit__` — also not a retry.) -/
def retry_exception : ClientError → Bool
  | .rpc e => e.code == StatusCode.unavailable
  | .py _ => false

/-- Turn the retry loop's outcome into what the caller of the client method
sees: a success value, or the exception surfaced after the
`except grpc.RpcError: self._handle_error(...)` wrapper.  Non-transport
exceptions (session mismatch, the two `ValueError`s) are not caught by that
wrapper and propagate as they are. -/
def finishOutcome {α : Type} : RetryOutcome ClientError α → Except PyException α
  | .success a => .ok a
  | .raised (.rpc e) => .error (handle_error e)
  | .raised (.py e) => .error e
  | .retriesExceededNoException => .error .retryNoException
  | .backoffValueError => .error .backoffRangeError

/-- The five wire values of `pb2.Explain.ExplainMode` that `_analyze` can set
(client.py:573-582).  Modelled from the spec: the proto enum definition is
generated code outside this slice; spec §8 requires the five accepted mode
strings to map to distinct enumerated wire values, which distinct
constructors model. -/
inductive ExplainMode where
  | SIMPLE | EXTENDED | CODEGEN | COST | FORMATTED
  deriving DecidableEq, Repr

/-- The accepted explain mode strings (client.py:566). -/
def acceptedExplainModes : List String :=
  ["simple", "extended", "codegen", "cost", "formatted"]

/-- The `if/elif` chain of `_analyze` assigning `req.explain.explain_mode`
(client.py:573-582); only reached after membership validation. -/
def explainModeOf (s : String) : ExplainMode :=
  if s == "simple" then .SIMPLE
  else if s == "extended" then .EXTENDED
  else if s == "cost" then .COST
  else if s == "codegen" then .CODEGEN
  else .FORMATTED

/-- The fields of `pb2.AnalyzePlanResponse` the client reads.  The proto
schema message is abstracted to its serialized text. -/
structure AnalyzePlanResponse where
  client_id : String
  schema : String
  explain_string : String
  tree_string : String
  is_local : Bool
  is_streaming : Bool
  input_files : List String
  deriving DecidableEq, Repr

/-- `AnalyzeResult` (client.py:348-374). -/
structure AnalyzeResult where
  schema : String
  explain_string : String
  tree_string : String
  is_local : Bool
  is_streaming : Bool
  input_files : List String
  deriving DecidableEq, Repr

/-- `AnalyzeResult.fromProto` (client.py:365-374). -/
def AnalyzeResult.fromProto (pb : AnalyzePlanResponse) : AnalyzeResult :=
  ⟨pb.schema, pb.explain_string, pb.tree_string, pb.is_local, pb.is_streaming,
    pb.input_files⟩

/-- What one run of `_analyze` did: the caller-visible result, how many
attempts the retry loop made (zero means the stub was never called), the
backoff sleeps, and the wire explain mode placed in the request, if the
request was built past validation. -/
structure AnalyzeRun where
  result : Except PyException AnalyzeResult
  attempts : Nat
  sleeps : List Int
  requestExplainMode : Option ExplainMode
  deriving DecidableEq, Repr

/-- The unit of work of `_analyze` for attempt `n` (client.py:587-594): call
the stub — the response oracle yields either a transport error or a response —
check the echoed `client_id` against the session id, and build the
`AnalyzeResult`. -/
def analyzeWork (session_id : String)
    (responses : Nat → Except RpcError AnalyzePlanResponse) (n : Nat) (s : Unit) :
    Unit × Except ClientError AnalyzeResult :=
  (s,
    match responses n with
    | .error e => .error (.rpc e)
    | .ok resp =>
      if resp.client_id ≠ session_id then
        .error (.py (.sessionIdMismatch resp.client_id session_id))
      else
        .ok (AnalyzeResult.fromProto resp))

/-- `SparkConnectClient._analyze` (client.py:549-597): explain-mode
validation before any network call, then the retried stub interaction. -/
def analyzeRun (session_id : String) (pol : RetryPolicy) (rng : Int → Int → Int)
    (explain_mode : String)
    (responses : Nat → Except RpcError AnalyzePlanResponse) : AnalyzeRun :=
  if explain_mode ∉ acceptedExplainModes then
    ⟨.error (.invalidExplainMode explain_mode), 0, [], none⟩
  else
    let r := retryRun pol retry_exception (analyzeWork session_id responses) rng ()
    ⟨finishOutcome r.outcome, r.attempts, r.sleeps, some (explainModeOf explain_mode)⟩

/-- A row batch (`pyarrow.RecordBatch`) decoded from an `arrow_batch` block;
only its row count is observable to the modelled behaviour. -/
structure RecordBatch where
  num_rows : Nat
  deriving DecidableEq, Repr

/-- `MetricValue` (client.py:299-318); values are modelled as integers. -/
structure MetricValue where
  name : String
  value : Int
  metric_type : String
  deriving DecidableEq, Repr

/-- `PlanMetrics` (client.py:321-345). -/
structure PlanMetrics where
  name : String
  plan_id : Int
  parent_plan_id : Int
  metrics : List MetricValue
  deriving DecidableEq, Repr

/-- One entry of `pb2.ExecutePlanResponse.Metrics.metrics`. -/
structure MetricsObjectProto where
  name : String
  plan_id : Int
  parent : Int
  execution_metrics : List (String × Int × String)
  deriving DecidableEq, Repr

/-- `pb2.ExecutePlanResponse.Metrics`. -/
structure MetricsProto where
  metrics : List MetricsObjectProto
  deriving DecidableEq, Repr

/-- `SparkConnectClient._build_metrics` (client.py:449-458). -/
def build_metrics (m : MetricsProto) : List PlanMetrics :=
  m.metrics.map fun x =>
    ⟨x.name, x.plan_id, x.parent,
      x.execution_metrics.map fun kv => ⟨kv.1, kv.2.1, kv.2.2⟩⟩

/-- One streamed `pb2.ExecutePlanResponse`: the echoed session id, an
optional metrics block, and an optional `arrow_batch` block already decoded
into its record batches (`pa.ipc.open_stream`). -/
structure StreamItem where
  client_id : String
  metrics : Option MetricsProto
  arrow_batch : Option (List RecordBatch)
  deriving Repr

/-- What the stub's response stream yields on one attempt: the items
delivered, then optionally a trailing `grpc.RpcError` aborting the stream. -/
structure AttemptStream where
  items : List StreamItem
  terminal : Option RpcError

/-- The response loop of `_execute` (client.py:615-620): drain the stream,
checking each echoed session id. -/
def drainItems (session_id : String) : List StreamItem → Except ClientError Unit
  | [] => .ok ()
  | b :: rest =>
    if b.client_id ≠ session_id then
      .error (.py (.sessionIdMismatch b.client_id session_id))
    else drainItems session_id rest

/-- The unit of work of `_execute` for attempt `n`. -/
def executeWork (session_id : String) (streams : Nat → AttemptStream) (n : Nat)
    (s : Unit) : Unit × Except ClientError Unit :=
  (s,
    match drainItems session_id (streams n).items with
    | .error e => .error e
    | .ok () =>
      match (streams n).terminal with
      | some e => .error (.rpc e)
      | none => .ok ())

/-- What one run of `_execute` / `_execute_and_fetch` did. -/
structure ExecuteRun (α : Type) where
  result : Except PyException α
  attempts : Nat
  sleeps : List Int
  deriving DecidableEq, Repr

/-- `SparkConnectClient._execute` (client.py:599-622): drain the stream and
drop all results, inside the retry loop and the `_handle_error` wrapper. -/
def executeRun (session_id : String) (pol : RetryPolicy) (rng : Int → Int → Int)
    (streams : Nat → AttemptStream) : ExecuteRun Unit :=
  let r := retryRun pol retry_exception (executeWork session_id streams) rng ()
  ⟨finishOutcome r.outcome, r.attempts, r.sleeps⟩

/-- The response loop of `_execute_and_fetch` (client.py:637-656), threading
the enclosing function's locals `(m, batches)`: check the echoed session id,
capture a present metrics block (last one wins), and append the decoded
record batches of a present `arrow_batch` block. -/
def fetchItems (session_id : String) :
    List StreamItem → Option MetricsProto × List RecordBatch →
    (Option MetricsProto × List RecordBatch) × Except ClientError Unit
  | [], st => (st, .ok ())
  | b :: rest, (m, batches) =>
    if b.client_id ≠ session_id then
      ((m, batches), .error (.py (.sessionIdMismatch b.client_id session_id)))
    else
      -- `if b.metrics is not None: m = b.metrics`; presence modelled by Option
      let m' := match b.metrics with
        | some mm => some mm
        | none => m
      -- `if b.HasField("arrow_batch"): ... batches.append(batch)`
      let batches' := match b.arrow_batch with
        | some bs => batches ++ bs
        | none => batches
      fetchItems session_id rest (m', batches')

/-- The unit of work of `_execute_and_fetch` for attempt `n`: `batches` is
reset to `[]` at the start of every attempt (client.py:637) while `m`
persists across attempts (declared before the retry loop, client.py:629). -/
def fetchWork (session_id : String) (streams : Nat → AttemptStream) (n : Nat)
    (st : Option MetricsProto × List RecordBatch) :
    (Option MetricsProto × List RecordBatch) × Except ClientError Unit :=
  let run := fetchItems session_id (streams n).items (st.1, [])
  match run.2 with
  | .error e => (run.1, .error e)
  | .ok () =>
    match (streams n).terminal with
    | some e => (run.1, .error (.rpc e))
    | none => (run.1, .ok ())

/-- `SparkConnectClient._execute_and_fetch` (client.py:624-662): the retried
stream consumption, then `assert len(batches) > 0`, the concatenation of the
batches into one table (kept as the batch list) and the metrics construction. -/
def executeAndFetchRun (session_id : String) (pol : RetryPolicy)
    (rng : Int → Int → Int) (streams : Nat → AttemptStream) :
    ExecuteRun (List RecordBatch × List PlanMetrics) :=
  let r := retryRun pol retry_exception (fetchWork session_id streams) rng (none, [])
  match finishOutcome r.outcome with
  | .error exc => ⟨.error exc, r.attempts, r.sleeps⟩
  | .ok () =>
    if r.final.2.length > 0 then
      ⟨.ok (r.final.2,
            match r.final.1 with
            | some m => build_metrics m
            | none => []),
        r.attempts, r.sleeps⟩
    else
      -- `assert len(batches) > 0` fails: AssertionError
      ⟨.error .emptyResultStream, r.attempts, r.sleeps⟩

/-! ## User id resolution in `SparkConnectClient.__init__` (client.py:420-426) -/

/-- The user id a freshly constructed client ends up with, given the parsed
builder, the constructor's `userId` argument, and `os.getenv("USER", None)`:
`if self._builder.userId is not None: ... elif userId is not None: ... else:
os.getenv("USER", None)`. -/
def clientUserId (builder : ChannelBuilderS) (userId : Option String)
    (envUser : Option String) : Option String :=
  match builder.userId with
  | some u => some u
  | none =>
    match userId with
    | some u => some u
    | none => envUser

/-! # Theorems -/

/-! ## Generic facts about the retry loop -/

/-- Unfolding `retryGo` at fuel `0` (the `count > max_retries` exit). -/
theorem retryGo_zero {E A σ : Type} (pol : RetryPolicy) (canRetry : E → Bool)
    (work : Nat → σ → σ × Except E A) (rng : Int → Int → Int)
    (count : Nat) (lastExc : Option E) (s : σ) :
    retryGo pol canRetry work rng 0 count lastExc s
      = match lastExc with
        | some e => ⟨.raised e, 0, [], s⟩
        | none => ⟨.retriesExceededNoException, 0, [], s⟩ := rfl

/-- Unfolding `retryGo` at fuel `fuel + 1` (one loop iteration). -/
theorem retryGo_succ {E A σ : Type} (pol : RetryPolicy) (canRetry : E → Bool)
    (work : Nat → σ → σ × Except E A) (rng : Int → Int → Int)
    (fuel count : Nat) (lastExc : Option E) (s : σ) :
    retryGo pol canRetry work rng (fuel + 1) count lastExc s
      = if 0 < count ∧ backoffBound pol count ≤ 0 then
          ⟨.backoffValueError, 0, [], s⟩
        else
          let sl : List Int :=
            if 0 < count then [rng 0 (backoffBound pol count)] else []
          match (work count s).2 with
          | .ok a => ⟨.success a, 1, sl, (work count s).1⟩
          | .error e =>
            if canRetry e then
              let rest :=
                retryGo pol canRetry work rng fuel (count + 1) (some e) (work count s).1
              ⟨rest.outcome, rest.attempts + 1, sl ++ rest.sleeps, rest.final⟩
            else
              ⟨.raised e, 1, sl, (work count s).1⟩ := rfl

/-- When the unit of work fails on every attempt and every failure is
retriable, the loop runs `fuel` more attempts at counts `count, count+1, …`
and then re-raises the error of the last one. -/
theorem retryGo_allFail {E : Type} (pol : RetryPolicy) (errs : Nat → E)
    (rng : Int → Int → Int) :
    ∀ fuel count,
      (∀ c, c < count + (fuel + 1) → 0 < c → 0 < backoffBound pol c) →
      ∀ lastExc : Option E,
        (retryGo pol (fun _ => true)
            (fun n s => (s, (Except.error (errs n) : Except E Unit))) rng
            (fuel + 1) count lastExc ()).outcome
          = RetryOutcome.raised (errs (count + fuel))
        ∧ (retryGo pol (fun _ => true)
            (fun n s => (s, (Except.error (errs n) : Except E Unit))) rng
            (fuel + 1) count lastExc ()).attempts = fuel + 1 := by
  intro fuel
  induction fuel with
  | zero =>
    intro count hpos lastExc
    have hnot : ¬(0 < count ∧ backoffBound pol count ≤ 0) := by
      rintro ⟨h1, h2⟩
      exact absurd (hpos count (by omega) h1) (by omega)
    rw [retryGo_succ, if_neg hnot]
    simp [retryGo_zero]
  | succ fuel ih =>
    intro count hpos lastExc
    have hnot : ¬(0 < count ∧ backoffBound pol count ≤ 0) := by
      rintro ⟨h1, h2⟩
      exact absurd (hpos count (by omega) h1) (by omega)
    have hrec := ih (count + 1) (fun c hc h0 => hpos c (by omega) h0)
      (some (errs count))
    have harg : count + 1 + fuel = count + (fuel + 1) := by omega
    rw [harg] at hrec
    rw [retryGo_succ, if_neg hnot]
    simp [hrec.1, hrec.2]

/-- Once an exception has been recorded, the defensive
`ValueError("Retries exceeded but no exception caught.")` branch can no
longer be reached. -/
theorem retryGo_some_ne_noException {E A σ : Type} (pol : RetryPolicy)
    (canRetry : E → Bool) (work : Nat → σ → σ × Except E A)
    (rng : Int → Int → Int) :
    ∀ fuel count (e : E) (s : σ),
      (retryGo pol canRetry work rng fuel count (some e) s).outcome
        ≠ RetryOutcome.retriesExceededNoException := by
  intro fuel
  induction fuel with
  | zero => intro count e s; simp [retryGo_zero]
  | succ fuel ih =>
    intro count e s
    rw [retryGo_succ]
    split
    · simp
    · rcases hw : (work count s).2 with e' | a
      · simp only [hw]
        split
        · exact ih (count + 1) e' (work count s).1
        · simp
      · simp [hw]


/-- The sleeps drawn by a run of the loop are exactly
`rng 0 (backoffBound pol c)` for the positive counts `c` among
`count, …, count + attempts - 1`: every attempt except one at count `0`
is preceded by exactly one draw. -/
theorem retryGo_sleeps {E A σ : Type} (pol : RetryPolicy) (canRetry : E → Bool)
    (work : Nat → σ → σ × Except E A) (rng : Int → Int → Int) :
    ∀ fuel count lastExc s,
      (retryGo pol canRetry work rng fuel count lastExc s).sleeps
        = ((countRange count
              (retryGo pol canRetry work rng fuel count lastExc s).attempts).filter
            (fun c => decide (0 < c))).map (fun c => rng 0 (backoffBound pol c)) := by
  intro fuel
  induction fuel with
  | zero =>
    intro count lastExc s
    cases lastExc <;> simp [retryGo_zero, countRange]
  | succ fuel ih =>
    intro count lastExc s
    rw [retryGo_succ]
    split
    · simp [countRange]
    · rcases hw : (work count s).2 with e' | a
      · simp only [hw]
        split
        · dsimp only
          rw [ih (count + 1) (some e') (work count s).1]
          by_cases hc : 0 < count <;> simp [countRange, hc]
        · by_cases hc : 0 < count <;> simp [countRange, hc]
      · simp only [hw]
        by_cases hc : 0 < count <;> simp [countRange, hc]

/-- Every count `c > 0` at which the loop actually ran an attempt had a
positive backoff bound (otherwise the loop would have stopped with the
`randrange` `ValueError` before reaching that attempt). -/
theorem retryGo_boundPos {E A σ : Type} (pol : RetryPolicy) (canRetry : E → Bool)
    (work : Nat → σ → σ × Except E A) (rng : Int → Int → Int) :
    ∀ fuel count lastExc s c, count ≤ c →
      c < count + (retryGo pol canRetry work rng fuel count lastExc s).attempts →
      0 < c → 0 < backoffBound pol c := by
  intro fuel
  induction fuel with
  | zero =>
    intro count lastExc s c h1 h2 h3
    cases lastExc <;> simp [retryGo_zero] at h2 <;> omega
  | succ fuel ih =>
    intro count lastExc s c h1 h2 h3
    rw [retryGo_succ] at h2
    by_cases hcond : 0 < count ∧ backoffBound pol count ≤ 0
    · rw [if_pos hcond] at h2
      simp at h2
      omega
    · rw [if_neg hcond] at h2
      rcases not_and_or.mp hcond with hnc | hb
      case _ =>
        -- `count = 0`; the only new attempt at `c = count` has `c = 0`,
        -- impossible with `0 < c`, so `c` lies in the recursive run.
        rcases hw : (work count s).2 with e' | a
        · simp only [hw] at h2
          by_cases hcr : canRetry e' = true
          · rw [if_pos hcr] at h2
            try dsimp only at h2
            rcases Nat.eq_or_lt_of_le h1 with hec | hlt
            · omega
            · exact ih (count + 1) (some e') (work count s).1 c (by omega) (by omega) h3
          · rw [if_neg hcr] at h2
            try dsimp only at h2
            omega
        · simp only [hw] at h2
          try dsimp only at h2
          omega
      case _ =>
        -- the bound at `count` is positive; so is any bound the recursive
        -- run reached.
        rcases hw : (work count s).2 with e' | a
        · simp only [hw] at h2
          by_cases hcr : canRetry e' = true
          · rw [if_pos hcr] at h2
            try dsimp only at h2
            rcases Nat.eq_or_lt_of_le h1 with hec | hlt
            · subst hec; omega
            · exact ih (count + 1) (some e') (work count s).1 c (by omega) (by omega) h3
          · rw [if_neg hcr] at h2
            try dsimp only at h2
            have : c = count := by omega
            subst this; omega
        · simp only [hw] at h2
          try dsimp only at h2
          have : c = count := by omega
          subst this; omega

/-- Membership in `countRange` is the interval `[start, start + n)`. -/
theorem mem_countRange : ∀ n start c, c ∈ countRange start n → start ≤ c ∧ c < start + n := by
  intro n
  induction n with
  | zero => intro start c h; simp [countRange] at h
  | succ n ih =>
    intro start c h
    simp only [countRange, List.mem_cons] at h
    rcases h with rfl | h
    · omega
    · have := ih (start + 1) c h
      omega

/-! ## C1 — exhaustion raises the error of the last attempt -/

/-- **C1.** With a `canRetry` predicate that always returns true,
`max_retries = N ≥ 0` and a unit of work that raises a (retriable) error on
every attempt, the `Retrying` loop performs exactly `N + 1` attempts and then
raises the error recorded on the last attempt (the error of attempt index
`N`), not any earlier one.  The hypothesis requires the backoff bounds the
run visits to be positive — as they are for the default policy — since
`random.randrange` would otherwise abort the loop with its own `ValueError`. -/
theorem retrying_all_fail_raises_last_error {E : Type} (pol : RetryPolicy)
    (errs : Nat → E) (rng : Int → Int → Int)
    (hpos : ∀ c, c < pol.max_retries + 1 → 0 < c → 0 < backoffBound pol c) :
    (retryRun pol (fun _ => true)
        (fun n s => (s, (Except.error (errs n) : Except E Unit))) rng ()).outcome
      = RetryOutcome.raised (errs pol.max_retries)
    ∧ (retryRun pol (fun _ => true)
        (fun n s => (s, (Except.error (errs n) : Except E Unit))) rng ()).attempts
      = pol.max_retries + 1 := by
  have h := retryGo_allFail pol errs rng pol.max_retries 0
    (fun c hc h0 => hpos c (by omega) h0) none
  rw [Nat.zero_add] at h
  exact ⟨h.1, h.2⟩

/-- Witness for `retrying_all_fail_raises_last_error`: `N = 2`, default
backoff fields, the error trace `errs n = n`; the loop makes `3` attempts and
raises `2`, the error of the last attempt. -/
theorem retrying_all_fail_raises_last_error_witness :
    (∀ c, c < (⟨2, 50, 60000, 4⟩ : RetryPolicy).max_retries + 1 → 0 < c →
        0 < backoffBound ⟨2, 50, 60000, 4⟩ c)
    ∧ (retryRun ⟨2, 50, 60000, 4⟩ (fun _ => true)
        (fun n s => (s, (Except.error n : Except Nat Unit))) (fun _ hi => hi - 1) ()).outcome
      = RetryOutcome.raised 2
    ∧ (retryRun ⟨2, 50, 60000, 4⟩ (fun _ => true)
        (fun n s => (s, (Except.error n : Except Nat Unit))) (fun _ hi => hi - 1) ()).attempts
      = 3 := by
  refine ⟨by decide, ?_, ?_⟩
  · exact (retrying_all_fail_raises_last_error ⟨2, 50, 60000, 4⟩ (fun n => n)
      (fun _ hi => hi - 1) (by decide)).1
  · exact (retrying_all_fail_raises_last_error ⟨2, 50, 60000, 4⟩ (fun n => n)
      (fun _ hi => hi - 1) (by decide)).2

/-! ## C2 — backoff sleeps and their bound -/

/-- **C2.** In the `Retrying` loop no sleep happens before the first attempt
(failure count `0`), and the sleep drawn before the retry attempt at failure
count `c > 0` is exactly one `randrange` draw over
`[0, min(initial_backoff * backoff_multiplier ^ c, max_backoff))`: the first
conjunct identifies the sleep trace with one draw per positive attempt count,
and the second bounds every slept duration by the claimed interval, for any
oracle satisfying the `randrange` contract.  (Uniformity of the distribution
is abstracted into the oracle; the support is what is provable.) -/
theorem retry_backoff_sleeps_in_bound {E A σ : Type} (pol : RetryPolicy)
    (canRetry : E → Bool) (work : Nat → σ → σ × Except E A)
    (rng : Int → Int → Int) (s0 : σ)
    (hrng : ∀ hi : Int, 0 < hi → 0 ≤ rng 0 hi ∧ rng 0 hi < hi) :
    (retryRun pol canRetry work rng s0).sleeps
      = ((countRange 0 (retryRun pol canRetry work rng s0).attempts).filter
          (fun c => decide (0 < c))).map (fun c => rng 0 (backoffBound pol c))
    ∧ ∀ s ∈ (retryRun pol canRetry work rng s0).sleeps, ∃ c, 0 < c
        ∧ c < (retryRun pol canRetry work rng s0).attempts
        ∧ s = rng 0 (backoffBound pol c)
        ∧ 0 ≤ s
        ∧ s < min (pol.initial_backoff * pol.backoff_multiplier ^ c) pol.max_backoff := by
  simp only [retryRun]
  constructor
  · exact retryGo_sleeps pol canRetry work rng (pol.max_retries + 1) 0 none s0
  · intro s hs
    rw [retryGo_sleeps pol canRetry work rng (pol.max_retries + 1) 0 none s0] at hs
    rcases List.mem_map.mp hs with ⟨c, hcmem, rfl⟩
    rcases List.mem_filter.mp hcmem with ⟨hcr, hcpos⟩
    have hcpos' : 0 < c := of_decide_eq_true hcpos
    have hlt : c < 0 + (retryGo pol canRetry work rng (pol.max_retries + 1) 0 none s0).attempts :=
      (mem_countRange _ 0 c hcr).2
    have hbpos : 0 < backoffBound pol c :=
      retryGo_boundPos pol canRetry work rng (pol.max_retries + 1) 0 none s0 c
        (by omega) hlt hcpos'
    refine ⟨c, hcpos', by omega, rfl, (hrng _ hbpos).1, ?_⟩
    have := (hrng _ hbpos).2
    simpa [backoffBound] using this

/-- Witness for `retry_backoff_sleeps_in_bound`: two retriable failures then
success under the maximal-draw oracle; the two sleeps are
`min(50·4, 60000) - 1 = 199` and `min(50·4², 60000) - 1 = 799`. -/
theorem retry_backoff_sleeps_in_bound_witness :
    (retryRun ⟨2, 50, 60000, 4⟩ (fun _ : Nat => true)
        (fun n s => (s, (if n < 2 then Except.error n else Except.ok 99 : Except Nat Nat)))
        (fun _ hi => hi - 1) ()).sleeps = [199, 799] := by
  have h := retry_backoff_sleeps_in_bound ⟨2, 50, 60000, 4⟩ (fun _ : Nat => true)
      (fun n s => (s, (if n < 2 then Except.error n else Except.ok 99 : Except Nat Nat)))
      (fun _ hi => hi - 1) () (fun hi hh => ⟨by dsimp only; omega, by dsimp only; omega⟩)
  rw [h.1]
  decide

/-! ## C10 — the defensive exhausted-without-error branch is unreachable -/

/-- **C10.** For every run of the `Retrying` loop (`max_retries ≥ 0` holds by
typing), terminating by exceeding the retry bound always re-raises a recorded
exception: the defensive `ValueError("Retries exceeded but no exception
caught.")` branch is unreachable, so the loop only exits via successful
completion, re-raising the last recorded retriable error, propagating a
non-retriable error (or `randrange`'s own `ValueError` for degenerate
non-positive backoff bounds). -/
theorem retry_exhausted_no_error_unreachable {E A σ : Type} (pol : RetryPolicy)
    (canRetry : E → Bool) (work : Nat → σ → σ × Except E A)
    (rng : Int → Int → Int) (s0 : σ) :
    (retryRun pol canRetry work rng s0).outcome
      ≠ RetryOutcome.retriesExceededNoException := by
  show (retryGo pol canRetry work rng (pol.max_retries + 1) 0 none s0).outcome ≠ _
  rw [retryGo_succ]
  split
  · simp
  · rcases hw : (work 0 s0).2 with e' | a
    · simp only [hw]
      split
      · exact retryGo_some_ne_noException pol canRetry work rng pol.max_retries 1 e' (work 0 s0).1
      · simp
    · simp [hw]

/-- Witness for `retry_exhausted_no_error_unreachable` at a concrete run that
does exhaust its retries. -/
theorem retry_exhausted_no_error_unreachable_witness :
    (retryRun ⟨1, 50, 60000, 4⟩ (fun _ : Nat => true)
        (fun n s => (s, (Except.error n : Except Nat Unit))) (fun _ _ => 0) ()).outcome
      ≠ RetryOutcome.retriesExceededNoException :=
  retry_exhausted_no_error_unreachable ⟨1, 50, 60000, 4⟩ (fun _ : Nat => true)
    (fun n s => (s, (Except.error n : Except Nat Unit))) (fun _ _ => 0) ()

/-! ## C4 — error translation -/

/-- The detail loop of `_handle_error` raises the translation of the first
structured `ErrorInfo`. -/
theorem handleDetails_eq_firstErrorInfo (statusMessage : String) :
    ∀ details, handleDetails statusMessage details
      = (firstErrorInfo details).map (translateErrorInfo statusMessage) := by
  intro details
  induction details with
  | nil => rfl
  | cons d rest ih =>
    cases d with
    | errorInfo info => rfl
    | other => simpa [handleDetails, firstErrorInfo] using ih

/-- **C4.** `_handle_error` never returns normally (its value in the model is
the exception raised), and the exception raised agrees with the spec's
translation table for every transport error: a recognized structured reason
code maps to the corresponding typed exception carrying the server message
(and plan text where applicable), an unrecognized reason code maps to the
generic wrapped exception with the raw status message and reason string, and
when no structured status is attached the raw transport error message alone
is wrapped. -/
theorem handle_error_matches_spec (e : RpcError) :
    handle_error e = errorTranslationSpec e := by
  rcases e with ⟨code, status, msg⟩
  cases status with
  | none => rfl
  | some st =>
    rcases st with ⟨smsg, details⟩
    simp only [handle_error, errorTranslationSpec,
      handleDetails_eq_firstErrorInfo]
    cases firstErrorInfo details with
    | none => rfl
    | some info => rfl

/-! ## C8 — explain mode validation and mapping -/

/-- **C8.** An `explainMode` outside
`{"simple", "extended", "codegen", "cost", "formatted"}` makes `_analyze`
fail with the `ValueError` before any network request is issued (zero
attempts, no sleeps, no request mode set); the five accepted mode strings map
to pairwise distinct enumerated wire values, and a valid mode is placed in
the request as its mapped value. -/
theorem explain_mode_validation_and_mapping (session_id : String)
    (pol : RetryPolicy) (rng : Int → Int → Int) :
    (∀ mode, mode ∉ acceptedExplainModes →
      ∀ responses, analyzeRun session_id pol rng mode responses
        = ⟨.error (.invalidExplainMode mode), 0, [], none⟩)
    ∧ (acceptedExplainModes.map explainModeOf).Pairwise (· ≠ ·)
    ∧ (∀ mode, mode ∈ acceptedExplainModes →
      ∀ responses, (analyzeRun session_id pol rng mode responses).requestExplainMode
        = some (explainModeOf mode)) := by
  refine ⟨?_, by decide, ?_⟩
  · intro mode h responses
    simp [analyzeRun, h]
  · intro mode h responses
    simp [analyzeRun, h]

/-- Witness for `explain_mode_validation_and_mapping`: the rejected mode
`"fancy"` and the accepted mode `"cost"`, under an arbitrary response
oracle. -/
theorem explain_mode_validation_and_mapping_witness :
    ("fancy" ∉ acceptedExplainModes)
    ∧ analyzeRun "sess" ⟨2, 50, 60000, 4⟩ (fun _ _ => 0) "fancy"
        (fun _ => .ok ⟨"sess", "s", "e", "t", false, false, []⟩)
      = ⟨.error (.invalidExplainMode "fancy"), 0, [], none⟩
    ∧ ("cost" ∈ acceptedExplainModes)
    ∧ (analyzeRun "sess" ⟨2, 50, 60000, 4⟩ (fun _ _ => 0) "cost"
        (fun _ => .ok ⟨"sess", "s", "e", "t", false, false, []⟩)).requestExplainMode
      = some ExplainMode.COST := by
  refine ⟨by decide, ?_, by decide, ?_⟩
  · exact (explain_mode_validation_and_mapping "sess" ⟨2, 50, 60000, 4⟩
      (fun _ _ => 0)).1 "fancy" (by decide) _
  · exact (explain_mode_validation_and_mapping "sess" ⟨2, 50, 60000, 4⟩
      (fun _ _ => 0)).2.2 "cost" (by decide) _

/-! ## C9 — user id precedence -/

/-- **C9 refutation.** The claim gives the explicit constructor argument
precedence over the connection-string parameter, but the code (and its own
docstring, client.py:399-403: "Defining the user ID as part of the connection
string takes precedence") resolves the connection-string `user_id` first:
with `user_id=alice` in the connection string and constructor argument
`"bob"`, the client's user id is `"alice"`, not `"bob"`. -/
theorem user_id_precedence_counterexample :
    channelBuilderInit "sc://h/;user_id=alice"
      = .ok ⟨⟨"h", "/", "user_id=alice", "", ""⟩, [("user_id", "alice")], "h", 15002⟩
    ∧ clientUserId ⟨⟨"h", "/", "user_id=alice", "", ""⟩, [("user_id", "alice")], "h", 15002⟩
        (some "bob") (some "carol") = some "alice"
    ∧ clientUserId ⟨⟨"h", "/", "user_id=alice", "", ""⟩, [("user_id", "alice")], "h", 15002⟩
        (some "bob") (some "carol") ≠ some "bob" := by
  refine ⟨by decide, by decide, by decide⟩

/-- **C9 amended.** `SparkConnectClient.__init__` resolves the user id with
the precedence: connection-string `user_id` parameter first, then the
explicit constructor argument, then the `$USER` environment fallback; a
source earlier in this order, when present, determines the user id
regardless of later sources. -/
theorem user_id_precedence_amended (builder : ChannelBuilderS)
    (userId envUser : Option String) :
    (builder.userId ≠ none → clientUserId builder userId envUser = builder.userId)
    ∧ (builder.userId = none → userId ≠ none →
        clientUserId builder userId envUser = userId)
    ∧ (builder.userId = none → userId = none →
        clientUserId builder userId envUser = envUser) := by
  refine ⟨?_, ?_, ?_⟩
  · intro h
    cases hb : builder.userId with
    | none => exact absurd hb h
    | some u => simp [clientUserId, hb]
  · intro hb hu
    cases hu' : userId with
    | none => exact absurd hu' hu
    | some u => simp [clientUserId, hb, hu']
  · intro hb hu
    simp [clientUserId, hb, hu]

/-- Witness for `user_id_precedence_amended` at the three concrete source
configurations. -/
theorem user_id_precedence_amended_witness :
    clientUserId ⟨⟨"h", "", "", "", ""⟩, [("user_id", "alice")], "h", 15002⟩
        (some "bob") (some "carol") = some "alice"
    ∧ clientUserId ⟨⟨"h", "", "", "", ""⟩, [], "h", 15002⟩
        (some "bob") (some "carol") = some "bob"
    ∧ clientUserId ⟨⟨"h", "", "", "", ""⟩, [], "h", 15002⟩
        none (some "carol") = some "carol" := by
  refine ⟨?_, ?_, ?_⟩
  · exact (user_id_precedence_amended ⟨⟨"h", "", "", "", ""⟩, [("user_id", "alice")], "h", 15002⟩
      (some "bob") (some "carol")).1 (by decide)
  · exact (user_id_precedence_amended ⟨⟨"h", "", "", "", ""⟩, [], "h", 15002⟩
      (some "bob") (some "carol")).2.1 (by decide) (by decide)
  · exact (user_id_precedence_amended ⟨⟨"h", "", "", "", ""⟩, [], "h", 15002⟩
      none (some "carol")).2.2 (by decide) (by decide)

/-! ## C3 — a session id mismatch is fatal and not retried -/

/-- If some streamed response carries a wrong session id, draining the stream
raises the mismatch `SparkConnectException` (for the first offending
response). -/
theorem drainItems_mismatch (session_id : String) :
    ∀ items : List StreamItem, (∃ b ∈ items, b.client_id ≠ session_id) →
      ∃ got, got ≠ session_id
        ∧ drainItems session_id items
          = .error (.py (.sessionIdMismatch got session_id)) := by
  intro items
  induction items with
  | nil => rintro ⟨b, hb, _⟩; simp at hb
  | cons b rest ih =>
    rintro ⟨b', hb', hne⟩
    by_cases hbid : b.client_id = session_id
    · rcases List.mem_cons.mp hb' with rfl | hmem
      · exact absurd hbid hne
      · rcases ih ⟨b', hmem, hne⟩ with ⟨got, hgot, heq⟩
        exact ⟨got, hgot, by simp [drainItems, hbid, heq]⟩
    · exact ⟨b.client_id, hbid, by simp [drainItems, hbid]⟩

/-- `fetchItems` analogue of `drainItems_mismatch`, for any incoming local
state. -/
theorem fetchItems_mismatch (session_id : String) :
    ∀ (items : List StreamItem) st, (∃ b ∈ items, b.client_id ≠ session_id) →
      ∃ got st', got ≠ session_id
        ∧ fetchItems session_id items st
          = (st', .error (.py (.sessionIdMismatch got session_id))) := by
  intro items
  induction items with
  | nil => rintro st ⟨b, hb, _⟩; simp at hb
  | cons b rest ih =>
    rintro ⟨m, batches⟩ ⟨b', hb', hne⟩
    by_cases hbid : b.client_id = session_id
    · rcases List.mem_cons.mp hb' with rfl | hmem
      · exact absurd hbid hne
      · rcases ih _ ⟨b', hmem, hne⟩ with ⟨got, st', hgot, heq⟩
        exact ⟨got, st', hgot, by simp [fetchItems, hbid]; exact heq⟩
    · exact ⟨b.client_id, (m, batches), hbid, by simp [fetchItems, hbid]⟩

/-- **C3.** For each of the three calls — `_analyze`, `_execute`
(`execute_command`) and `_execute_and_fetch` — a response whose echoed
session id differs from the client's makes the call fail with the
session-identity-mismatch `SparkConnectException`, after exactly one attempt:
the mismatch is not a retriable transport error, so no further retry attempts
are performed. -/
theorem session_mismatch_fatal_no_retry (session_id : String)
    (pol : RetryPolicy) (rng : Int → Int → Int) :
    (∀ responses resp, responses 0 = Except.ok resp → resp.client_id ≠ session_id →
      (analyzeRun session_id pol rng "extended" responses).result
        = .error (.sessionIdMismatch resp.client_id session_id)
      ∧ (analyzeRun session_id pol rng "extended" responses).attempts = 1)
    ∧ (∀ streams : Nat → AttemptStream, (∃ b ∈ (streams 0).items, b.client_id ≠ session_id) →
      (∃ got, got ≠ session_id
        ∧ (executeRun session_id pol rng streams).result
          = .error (.sessionIdMismatch got session_id))
      ∧ (executeRun session_id pol rng streams).attempts = 1)
    ∧ (∀ streams : Nat → AttemptStream, (∃ b ∈ (streams 0).items, b.client_id ≠ session_id) →
      (∃ got, got ≠ session_id
        ∧ (executeAndFetchRun session_id pol rng streams).result
          = .error (.sessionIdMismatch got session_id))
      ∧ (executeAndFetchRun session_id pol rng streams).attempts = 1) := by
  refine ⟨?_, ?_, ?_⟩
  · intro responses resp h0 hne
    have hwork : (analyzeWork session_id responses 0 ()).2
        = .error (.py (.sessionIdMismatch resp.client_id session_id)) := by
      simp [analyzeWork, h0, hne]
    have : analyzeRun session_id pol rng "extended" responses
        = ⟨.error (.sessionIdMismatch resp.client_id session_id), 1, [],
            some ExplainMode.EXTENDED⟩ := by
      simp only [analyzeRun]
      rw [if_neg (by decide)]
      simp only [retryRun]
      rw [retryGo_succ, if_neg (by simp)]
      simp [hwork, retry_exception, finishOutcome, explainModeOf]
    rw [this]
    exact ⟨rfl, rfl⟩
  · intro streams hex
    rcases drainItems_mismatch session_id (streams 0).items hex with ⟨got, hgot, hdrain⟩
    have hwork : (executeWork session_id streams 0 ()).2
        = .error (.py (.sessionIdMismatch got session_id)) := by
      simp [executeWork, hdrain]
    have : executeRun session_id pol rng streams
        = ⟨.error (.sessionIdMismatch got session_id), 1, []⟩ := by
      simp only [executeRun, retryRun]
      rw [retryGo_succ, if_neg (by simp)]
      simp [hwork, retry_exception, finishOutcome]
    rw [this]
    exact ⟨⟨got, hgot, rfl⟩, rfl⟩
  · intro streams hex
    rcases fetchItems_mismatch session_id (streams 0).items
        ((none, []) : Option MetricsProto × List RecordBatch) hex with ⟨got, st', hgot, heq⟩
    have hwork : (fetchWork session_id streams 0 (none, [])).2
        = .error (.py (.sessionIdMismatch got session_id)) := by
      simp [fetchWork, heq]
    have : executeAndFetchRun session_id pol rng streams
        = ⟨.error (.sessionIdMismatch got session_id), 1, []⟩ := by
      simp only [executeAndFetchRun, retryRun]
      rw [retryGo_succ, if_neg (by simp)]
      simp [hwork, retry_exception, finishOutcome]
    rw [this]
    exact ⟨⟨got, hgot, rfl⟩, rfl⟩

/-- Witness for `session_mismatch_fatal_no_retry`: concrete mismatching
responses for the analyze and execute paths. -/
theorem session_mismatch_fatal_no_retry_witness :
    ((analyzeRun "sess" ⟨2, 50, 60000, 4⟩ (fun _ _ => 0) "extended"
        (fun _ => .ok ⟨"other", "s", "e", "t", false, false, []⟩)).result
      = .error (.sessionIdMismatch "other" "sess")
    ∧ (analyzeRun "sess" ⟨2, 50, 60000, 4⟩ (fun _ _ => 0) "extended"
        (fun _ => .ok ⟨"other", "s", "e", "t", false, false, []⟩)).attempts = 1)
    ∧ ((∃ got, got ≠ "sess"
        ∧ (executeRun "sess" ⟨2, 50, 60000, 4⟩ (fun _ _ => 0)
            (fun _ => ⟨[⟨"other", none, none⟩], none⟩)).result
          = .error (.sessionIdMismatch got "sess"))
    ∧ (executeRun "sess" ⟨2, 50, 60000, 4⟩ (fun _ _ => 0)
        (fun _ => ⟨[⟨"other", none, none⟩], none⟩)).attempts = 1) := by
  constructor
  · exact (session_mismatch_fatal_no_retry "sess" ⟨2, 50, 60000, 4⟩ (fun _ _ => 0)).1
      (fun _ => .ok ⟨"other", "s", "e", "t", false, false, []⟩)
      ⟨"other", "s", "e", "t", false, false, []⟩ rfl (by decide)
  · exact (session_mismatch_fatal_no_retry "sess" ⟨2, 50, 60000, 4⟩ (fun _ _ => 0)).2.1
      (fun _ => ⟨[⟨"other", none, none⟩], none⟩)
      ⟨⟨"other", none, none⟩, by simp, by decide⟩

/-! ## C5 — an empty result stream is rejected -/

/-- Consuming a stream whose responses all carry the right session id and no
record batches leaves the batch accumulator unchanged and succeeds. -/
theorem fetchItems_no_batches (session_id : String) :
    ∀ (items : List StreamItem) (m : Option MetricsProto) (bs : List RecordBatch),
      (∀ b ∈ items, b.client_id = session_id) →
      (∀ b ∈ items, b.arrow_batch.getD [] = []) →
      ∃ m', fetchItems session_id items (m, bs) = ((m', bs), .ok ()) := by
  intro items
  induction items with
  | nil => intro m bs _ _; exact ⟨m, rfl⟩
  | cons b rest ih =>
    intro m bs hid hbatch
    have hb : b.client_id = session_id := hid b (by simp)
    have hbb : b.arrow_batch.getD [] = [] := hbatch b (by simp)
    have hbatches' : (match b.arrow_batch with
        | some bs' => bs ++ bs'
        | none => bs) = bs := by
      cases hab : b.arrow_batch with
      | none => rfl
      | some l =>
        simp only [hab, Option.getD] at hbb
        simp [hbb]
    rcases ih (match b.metrics with | some mm => some mm | none => m) bs
        (fun x hx => hid x (by simp [hx])) (fun x hx => hbatch x (by simp [hx]))
      with ⟨m', hm'⟩
    refine ⟨m', ?_⟩
    simp only [fetchItems, hb]
    rw [if_neg (by simp [hb])]
    rw [hbatches']
    exact hm'

/-- **C5.** When the response stream of `_execute_and_fetch` ends after
yielding zero record batches, the call fails with the `AssertionError` of
`assert len(batches) > 0` (the `EmptyResultStream` error) — and a logically
empty result that does arrive as one zero-row batch succeeds, returning that
batch. -/
theorem execute_and_fetch_empty_stream (session_id : String) (pol : RetryPolicy)
    (rng : Int → Int → Int) :
    (∀ streams : Nat → AttemptStream,
      (streams 0).terminal = none →
      (∀ b ∈ (streams 0).items, b.client_id = session_id) →
      (∀ b ∈ (streams 0).items, b.arrow_batch.getD [] = []) →
      (executeAndFetchRun session_id pol rng streams).result
        = .error .emptyResultStream)
    ∧ (∀ streams : Nat → AttemptStream, ∀ b : RecordBatch, b.num_rows = 0 →
      streams 0 = ⟨[⟨session_id, none, some [b]⟩], none⟩ →
      (executeAndFetchRun session_id pol rng streams).result = .ok ([b], [])) := by
  constructor
  · intro streams hterm hid hbatch
    rcases fetchItems_no_batches session_id (streams 0).items none [] hid hbatch
      with ⟨m', hfetch⟩
    have hwork : fetchWork session_id streams 0 (none, []) = ((m', []), .ok ()) := by
      simp [fetchWork, hfetch, hterm]
    simp only [executeAndFetchRun, retryRun]
    rw [retryGo_succ, if_neg (by simp)]
    simp [hwork, finishOutcome]
  · intro streams b hrows hstream
    have hwork : fetchWork session_id streams 0 (none, []) = ((none, [b]), .ok ()) := by
      simp [fetchWork, hstream, fetchItems]
    simp only [executeAndFetchRun, retryRun]
    rw [retryGo_succ, if_neg (by simp)]
    simp [hwork, finishOutcome]

/-- Witness for `execute_and_fetch_empty_stream`: a matching stream with no
batch blocks fails with the assertion error; one zero-row batch succeeds. -/
theorem execute_and_fetch_empty_stream_witness :
    (executeAndFetchRun "sess" ⟨2, 50, 60000, 4⟩ (fun _ _ => 0)
        (fun _ => ⟨[⟨"sess", none, none⟩], none⟩)).result
      = .error .emptyResultStream
    ∧ (executeAndFetchRun "sess" ⟨2, 50, 60000, 4⟩ (fun _ _ => 0)
        (fun _ => ⟨[⟨"sess", none, some [⟨0⟩]⟩], none⟩)).result
      = .ok ([⟨0⟩], []) := by
  constructor
  · exact (execute_and_fetch_empty_stream "sess" ⟨2, 50, 60000, 4⟩ (fun _ _ => 0)).1
      (fun _ => ⟨[⟨"sess", none, none⟩], none⟩) rfl (by decide) (by decide)
  · exact (execute_and_fetch_empty_stream "sess" ⟨2, 50, 60000, 4⟩ (fun _ _ => 0)).2
      (fun _ => ⟨[⟨"sess", none, some [⟨0⟩]⟩], none⟩) ⟨0⟩ rfl rfl

/-! ## C6 — the `secure` property -/

/-- **C6.** For every successfully parsed connection descriptor, `secure` is
true iff a bearer token parameter is present or the `use_ssl` parameter's
value compares case-insensitively equal to `"true"`; and with no parameters
at all `secure` is false. -/
theorem secure_iff_token_or_use_ssl :
    (∀ url cb, channelBuilderInit url = .ok cb →
      (cb.secure = true ↔ (cb.token.isSome = true
        ∨ lowerStr ((dictGet cb.params PARAM_USE_SSL).getD "") = "true")))
    ∧ (∀ url cb, channelBuilderInit url = .ok cb → cb.params = [] →
      cb.secure = false) := by
  constructor
  · intro url cb _
    cases htok : cb.token with
    | some t => simp [ChannelBuilderS.secure, htok]
    | none => simp [ChannelBuilderS.secure, htok]
  · intro url cb _ hp
    have htok : cb.token = none := by simp [ChannelBuilderS.token, hp, dictGet]
    simp [ChannelBuilderS.secure, htok, hp, dictGet]
    decide

/-- Witness for `secure_iff_token_or_use_ssl`: the parsed
`sc://h:1/;use_ssl=true` has `secure` true via the `use_ssl` disjunct, and
the parsed `sc://h:1` (no parameters) has `secure` false. -/
theorem secure_iff_token_or_use_ssl_witness :
    ((⟨⟨"h:1", "/", "use_ssl=true", "", ""⟩, [("use_ssl", "true")], "h", 1⟩
        : ChannelBuilderS).secure = true
      ↔ ((⟨⟨"h:1", "/", "use_ssl=true", "", ""⟩, [("use_ssl", "true")], "h", 1⟩
        : ChannelBuilderS).token.isSome = true
        ∨ lowerStr ((dictGet [("use_ssl", "true")] PARAM_USE_SSL).getD "") = "true"))
    ∧ (⟨⟨"h:1", "", "", "", ""⟩, [], "h", 1⟩ : ChannelBuilderS).secure = false := by
  constructor
  · exact (secure_iff_token_or_use_ssl).1 "sc://h:1/;use_ssl=true"
      ⟨⟨"h:1", "/", "use_ssl=true", "", ""⟩, [("use_ssl", "true")], "h", 1⟩ (by decide)
  · exact (secure_iff_token_or_use_ssl).2 "sc://h:1"
      ⟨⟨"h:1", "", "", "", ""⟩, [], "h", 1⟩ (by decide) rfl

/-! ## C7 — which connection strings parse -/

/-- `str.split` never yields an empty list of pieces. -/
theorem splitCharAux_ne_nil (sep : Char) : ∀ s acc, splitCharAux sep s acc ≠ [] := by
  intro s
  induction s with
  | nil => intro acc; simp [splitCharAux]
  | cons c rest ih =>
    intro acc
    simp only [splitCharAux]
    split
    · simp
    · exact ih _

/-- `splitChar` never yields `[]`. -/
theorem splitChar_ne_nil (sep : Char) (s : List Char) : splitChar sep s ≠ [] :=
  splitCharAux_ne_nil sep s []

/-- When every segment splits into exactly one `=` pair, the parameter loop
succeeds. -/
theorem extractParams_ok_of_all : ∀ segs : List (List Char),
    (∀ p ∈ segs, (splitChar '=' p).length = 2) →
    ∃ ps, extractParams segs = .ok ps := by
  intro segs
  induction segs with
  | nil => intro _; exact ⟨[], rfl⟩
  | cons p rest ih =>
    intro h
    rcases ih (fun q hq => h q (by simp [hq])) with ⟨ps, hps⟩
    have hlen : (splitChar '=' p).length = 2 := h p (by simp)
    rcases hkv : splitChar '=' p with _ | ⟨k, tl⟩
    · rw [hkv] at hlen; simp at hlen
    · rcases tl with _ | ⟨v, tl2⟩
      · rw [hkv] at hlen; simp at hlen
      · rcases tl2 with _ | ⟨x, tl3⟩
        · refine ⟨(⟨k⟩, ⟨unquoteList v⟩) :: ps, ?_⟩
          simp [extractParams, hkv, hps]
        · rw [hkv] at hlen; simp at hlen

/-- When some segment does not split into exactly one `=` pair, the parameter
loop raises the malformed-parameter `AttributeError`. -/
theorem extractParams_error_of_bad : ∀ segs : List (List Char),
    (∃ p ∈ segs, (splitChar '=' p).length ≠ 2) →
    ∃ seg, extractParams segs = .error (.malformedParam seg) := by
  intro segs
  induction segs with
  | nil => rintro ⟨p, hp, _⟩; simp at hp
  | cons p rest ih =>
    rintro ⟨p', hp', hbad⟩
    by_cases hp2 : (splitChar '=' p).length = 2
    · have hrest : ∃ q ∈ rest, (splitChar '=' q).length ≠ 2 := by
        rcases List.mem_cons.mp hp' with rfl | hmem
        · exact absurd hp2 hbad
        · exact ⟨p', hmem, hbad⟩
      rcases ih hrest with ⟨seg, hseg⟩
      rcases hkv : splitChar '=' p with _ | ⟨k, tl⟩
      · rw [hkv] at hp2; simp at hp2
      · rcases tl with _ | ⟨v, tl2⟩
        · rw [hkv] at hp2; simp at hp2
        · rcases tl2 with _ | ⟨x, tl3⟩
          · exact ⟨seg, by simp [extractParams, hkv, hseg]⟩
          · rw [hkv] at hp2; simp at hp2
    · refine ⟨⟨p⟩, ?_⟩
      rcases hkv : splitChar '=' p with _ | ⟨k, tl⟩
      · simp [extractParams, hkv]
      · rcases tl with _ | ⟨v, tl2⟩
        · simp [extractParams, hkv]
        · rcases tl2 with _ | ⟨x, tl3⟩
          · rw [hkv] at hp2; simp at hp2
          · simp [extractParams, hkv]

/-- **C7 amended.** Characterization of `ChannelBuilder.__init__`: the
`AttributeError` (`MalformedConnectionString`) rejections are exactly the
spec's four conditions — wrong scheme prefix, or (when the URL survives
`urlparse`) a non-trivial path, a parameter segment that is not one `=` pair,
or a netloc with more than one colon.  Parsing succeeds exactly when,
additionally, the netloc has balanced square brackets (else `urlparse` raises
`ValueError("Invalid IPv6 URL")`) and the port segment, when present, is an
integer literal (else `int()` raises `ValueError`) — two failure modes the
claim's "every other well-formed connection string parses" overlooks. -/
theorem parse_failure_characterization (url : String) :
    (resultIsMalformed (channelBuilderInit url) = true
      ↔ (connSchemeOk url = false
          ∨ (connSchemeOk url = true ∧ connUrlOk url = true
              ∧ (connPathBad url = true
                  ∨ (connPathBad url = false
                      ∧ (connParamsBad url = true
                          ∨ (connParamsBad url = false
                              ∧ 2 < connNetlocParts url)))))))
    ∧ ((channelBuilderInit url).isOk = true
        ↔ (connSchemeOk url = true ∧ connUrlOk url = true ∧ connPathBad url = false
            ∧ connParamsBad url = false ∧ connNetlocParts url ≤ 2
            ∧ connPortBad url = false)) := by
  by_cases hscheme : url.data.take 5 = "sc://".data
  case neg =>
    have h1 : channelBuilderInit url = .error .malformedScheme := by
      unfold channelBuilderInit
      rw [if_pos hscheme]
    have h2 : connSchemeOk url = false := by
      simp only [connSchemeOk]
      exact decide_eq_false hscheme
    rw [h1, h2]
    simp [resultIsMalformed, BuilderError.isMalformedConnectionString,
      Except.isOk, Except.toBool]
  case pos =>
    have h2 : connSchemeOk url = true := by
      simp only [connSchemeOk]
      exact decide_eq_true hscheme
    rcases hup : urlparseHttp (url.data.drop 5) with e | parts
    · have h1 : channelBuilderInit url = .error .invalidIPv6Url := by
        unfold channelBuilderInit
        rw [if_neg (not_not_intro hscheme), hup]
      have h3 : connUrlOk url = false := by simp [connUrlOk, hup]
      rw [h1, h2, h3]
      simp [resultIsMalformed, BuilderError.isMalformedConnectionString,
        Except.isOk, Except.toBool]
    · have h3 : connUrlOk url = true := by simp [connUrlOk, hup]
      by_cases hpath : parts.path.data.length > 0 ∧ parts.path ≠ "/"
      · have h1 : channelBuilderInit url = .error (.malformedPath parts.path) := by
          unfold channelBuilderInit
          rw [if_neg (not_not_intro hscheme), hup]
          dsimp only
          rw [if_pos hpath]
        have h4 : connPathBad url = true := by
          simp only [connPathBad, hup]
          exact decide_eq_true hpath
        rw [h1, h2, h3, h4]
        simp [resultIsMalformed, BuilderError.isMalformedConnectionString,
          Except.isOk, Except.toBool]
      · have h4 : connPathBad url = false := by
          simp only [connPathBad, hup]
          exact decide_eq_false hpath
        by_cases hparams : parts.params.data.length > 0
            ∧ ∃ p ∈ splitChar ';' parts.params.data, (splitChar '=' p).length ≠ 2
        · -- a malformed parameter segment
          rcases extractParams_error_of_bad _ hparams.2 with ⟨seg, hseg⟩
          have hifp : (if parts.params.data.length > 0 then
              extractParams (splitChar ';' parts.params.data)
            else .ok []) = .error (.malformedParam seg) := by
            rw [if_pos hparams.1, hseg]
          have h1 : channelBuilderInit url = .error (.malformedParam seg) := by
            unfold channelBuilderInit
            rw [if_neg (not_not_intro hscheme), hup]
            dsimp only
            rw [if_neg hpath, hifp]
          have h5 : connParamsBad url = true := by
            simp only [connParamsBad, hup]
            exact decide_eq_true hparams
          rw [h1, h2, h3, h4, h5]
          simp [resultIsMalformed, BuilderError.isMalformedConnectionString,
            Except.isOk, Except.toBool]
        · -- parameters parse
          have h5 : connParamsBad url = false := by
            simp only [connParamsBad, hup]
            exact decide_eq_false hparams
          have hok : ∃ ps,
              (if parts.params.data.length > 0 then
                extractParams (splitChar ';' parts.params.data)
              else .ok []) = .ok ps := by
            by_cases hlen : parts.params.data.length > 0
            · rw [if_pos hlen]
              refine extractParams_ok_of_all _ ?_
              intro p hp
              by_contra hbad
              exact hparams ⟨hlen, p, hp, hbad⟩
            · exact ⟨[], by rw [if_neg hlen]⟩
          rcases hok with ⟨ps, hps⟩
          rcases hnl : splitChar ':' parts.netloc.data with _ | ⟨hd, tl⟩
          · exact absurd hnl (splitChar_ne_nil ':' _)
          · rcases tl with _ | ⟨p2, tl2⟩
            · -- no colon: default port, success
              have h1 : channelBuilderInit url = .ok ⟨parts, ps, ⟨hd⟩, DEFAULT_PORT⟩ := by
                unfold channelBuilderInit
                rw [if_neg (not_not_intro hscheme), hup]
                dsimp only
                rw [if_neg hpath, hps]
                dsimp only
                rw [hnl]
              have h6 : connNetlocParts url = 1 := by simp [connNetlocParts, hup, hnl]
              have h7 : connPortBad url = false := by simp [connPortBad, hup, hnl]
              rw [h1, h2, h3, h4, h5, h6, h7]
              simp [resultIsMalformed, Except.isOk, Except.toBool]
            · rcases tl2 with _ | ⟨x, tl3⟩
              · -- one colon: port literal decides between success and ValueError
                rcases hport : pyIntParse ⟨p2⟩ with _ | port
                · have h1 : channelBuilderInit url
                      = .error (.invalidPortLiteral ⟨p2⟩) := by
                    unfold channelBuilderInit
                    rw [if_neg (not_not_intro hscheme), hup]
                    dsimp only
                    rw [if_neg hpath, hps]
                    dsimp only
                    rw [hnl]
                    dsimp only
                    rw [hport]
                  have h6 : connNetlocParts url = 2 := by
                    simp [connNetlocParts, hup, hnl]
                  have h7 : connPortBad url = true := by
                    simp [connPortBad, hup, hnl, hport]
                  rw [h1, h2, h3, h4, h5, h6, h7]
                  simp [resultIsMalformed, BuilderError.isMalformedConnectionString,
                    Except.isOk, Except.toBool]
                · have h1 : channelBuilderInit url = .ok ⟨parts, ps, ⟨hd⟩, port⟩ := by
                    unfold channelBuilderInit
                    rw [if_neg (not_not_intro hscheme), hup]
                    dsimp only
                    rw [if_neg hpath, hps]
                    dsimp only
                    rw [hnl]
                    dsimp only
                    rw [hport]
                  have h6 : connNetlocParts url = 2 := by
                    simp [connNetlocParts, hup, hnl]
                  have h7 : connPortBad url = false := by
                    simp [connPortBad, hup, hnl, hport]
                  rw [h1, h2, h3, h4, h5, h6, h7]
                  simp [resultIsMalformed, Except.isOk, Except.toBool]
              · -- more than one colon
                have h1 : channelBuilderInit url
                    = .error (.malformedNetloc parts.netloc) := by
                  unfold channelBuilderInit
                  rw [if_neg (not_not_intro hscheme), hup]
                  dsimp only
                  rw [if_neg hpath, hps]
                  dsimp only
                  rw [hnl]
                have h6 : connNetlocParts url = tl3.length + 3 := by
                  simp [connNetlocParts, hup, hnl]
                have h7 : connPortBad url = false := by
                  simp [connPortBad, hup, hnl]
                rw [h1, h2, h3, h4, h5, h6, h7]
                simp [resultIsMalformed, BuilderError.isMalformedConnectionString,
                  Except.isOk, Except.toBool]

/-- **C7 refutation of the claim as stated.** `"sc://host:3x"` matches none
of the claim's four failure conditions, yet parsing does not succeed: it
fails with the `ValueError` of `int("3x")`, which is also not the
`MalformedConnectionString` (`AttributeError`) group. -/
theorem parse_success_claim_counterexample :
    connSchemeOk "sc://host:3x" = true
    ∧ connPathBad "sc://host:3x" = false
    ∧ connParamsBad "sc://host:3x" = false
    ∧ connNetlocParts "sc://host:3x" = 2
    ∧ channelBuilderInit "sc://host:3x" = .error (.invalidPortLiteral "3x")
    ∧ resultIsMalformed (channelBuilderInit "sc://host:3x") = false := by
  decide

/-- Witness for `parse_failure_characterization`: `sc://h` parses; the
two-colon `sc://h:1:2` is a `MalformedConnectionString`. -/
theorem parse_failure_characterization_witness :
    (channelBuilderInit "sc://h").isOk = true
    ∧ resultIsMalformed (channelBuilderInit "sc://h:1:2") = true :=
  ⟨(parse_failure_characterization "sc://h").2.mpr (by decide),
   (parse_failure_characterization "sc://h:1:2").1.mpr (by decide)⟩

end SparkConnect
